import Mathlib

set_option maxRecDepth 10000

/-!
Verification of the RentHub backend core (src/main.py, src/schemas.py).

Python strings are shallowly embedded as lists of Unicode code points
(`PyStr`); Python byte strings as lists of naturals below 256.  Machine
floats never influence a settled claim here (the aggregate write in
`create_rating` never lands, see `create_rating` below), so the float
fields `rating_avg` are modelled as rationals.  The `.lower()` and
`.upper()` string methods are modelled by their action on ASCII letters
(all inputs exercised by the claims are ASCII); `str.replace(" ", "")`
removes exactly the space code point 32, as in the source.
-/

/-- Python strings, modelled as lists of Unicode code points. -/
abbrev PyStr := List Nat

/-- Code points of a Lean string literal, for writing concrete Python strings. -/
def lit (s : String) : PyStr := s.toList.map Char.toNat

/-- Decimal digit code points of a natural number, most significant first,
with explicit fuel so that the definition is structural and kernel-reducible. -/
def decimalAux : Nat → Nat → List Nat
  | 0, _ => []
  | fuel + 1, n => if n < 10 then [n + 48] else decimalAux fuel (n / 10) ++ [n % 10 + 48]

/-- Embedding of Python `str(n)` for a natural number (decimal, no sign). -/
def natToDecimal (n : Nat) : PyStr := decimalAux (n + 1) n

/-- Left inverse of `natToDecimal`: read a decimal digit string back as a number. -/
def decodeDecimal (l : List Nat) : Nat := l.foldl (fun a d => a * 10 + (d - 48)) 0

/-- The k-th candidate probed by `ensure_unique_code` (main.py lines 37-44):
the base code itself for k = 0, and the Python f-string `code-k` for k ≥ 1. -/
def candidate (code : PyStr) : Nat → PyStr
  | 0 => code
  | Nat.succ k => code ++ (45 :: natToDecimal (k + 1))

/-- The probe loop of `ensure_unique_code` (main.py lines 37-44): `k` is the index
of the candidate about to be checked against the store (`find_one` on the
`unique_code` field is membership in the list of existing codes), and `fuel`
bounds the number of probes so the definition is structural.
`ensure_unique_code` supplies fuel `codes.length + 1`, which always suffices
(`euc_success`), so the fuel is not an added cap: the source loop is uncapped. -/
def euc_go (codes : List PyStr) (code : PyStr) : Nat → Nat → Option PyStr
  | _, 0 => none
  | k, fuel + 1 =>
    if codes.contains (candidate code k) then euc_go codes code (k + 1) fuel
    else some (candidate code k)

/-- Embedding of `ensure_unique_code` from main.py: probe `code`, `code-1`,
`code-2`, ... in order and return the first value absent from the store. -/
def ensure_unique_code (codes : List PyStr) (code : PyStr) : Option PyStr :=
  euc_go codes code 0 (codes.length + 1)

/-! SHA-1 over byte lists, as used by `hashlib.sha1(...).hexdigest()` in
`generate_property_code` (main.py lines 31-34).  Words are naturals kept
below 2^32 by explicit reduction. -/

/-- The word modulus 2^32. -/
def M32 : Nat := 4294967296

/-- Left rotation of a 32-bit word by `s` places. -/
def rotl (s x : Nat) : Nat := (x * 2 ^ s + x / 2 ^ (32 - s)) % M32

/-- SHA-1 message padding: append bit 1, zeros, and the 64-bit bit length. -/
def sha1pad (m : List Nat) : List Nat :=
  let lenBits := 8 * m.length
  let zeros := (64 - ((m.length + 9) % 64)) % 64
  m ++ [128] ++ List.replicate zeros 0 ++
    [lenBits / 2 ^ 56 % 256, lenBits / 2 ^ 48 % 256, lenBits / 2 ^ 40 % 256,
     lenBits / 2 ^ 32 % 256, lenBits / 2 ^ 24 % 256, lenBits / 2 ^ 16 % 256,
     lenBits / 2 ^ 8 % 256, lenBits % 256]

/-- Split a byte list into 64-byte blocks (fuel-based structural recursion). -/
def chunks64 : Nat → List Nat → List (List Nat)
  | 0, _ => []
  | _, [] => []
  | fuel + 1, l => l.take 64 :: chunks64 fuel (l.drop 64)

/-- The 16 big-endian 32-bit words of one 64-byte block. -/
def blockWords (b : List Nat) : List Nat :=
  (List.range 16).map (fun i =>
    b.getD (4 * i) 0 * 2 ^ 24 + b.getD (4 * i + 1) 0 * 2 ^ 16 +
      b.getD (4 * i + 2) 0 * 2 ^ 8 + b.getD (4 * i + 3) 0)

/-- Message-schedule extension; `ws` holds the words produced so far, most
recent first, so `w[t-3]` is `ws[2]`, `w[t-8]` is `ws[7]`, and so on. -/
def extendWords : Nat → List Nat → List Nat
  | 0, ws => ws
  | fuel + 1, ws =>
    let w := rotl 1 (Nat.xor (Nat.xor (ws.getD 2 0) (ws.getD 7 0))
      (Nat.xor (ws.getD 13 0) (ws.getD 15 0)))
    extendWords fuel (w :: ws)

/-- Round function and constant for round `t`. -/
def sha1fk (t b c d : Nat) : Nat × Nat :=
  if t < 20 then (Nat.lor (Nat.land b c) (Nat.land (M32 - 1 - b) d), 1518500249)
  else if t < 40 then (Nat.xor (Nat.xor b c) d, 1859775393)
  else if t < 60 then (Nat.lor (Nat.lor (Nat.land b c) (Nat.land b d)) (Nat.land c d), 2400959708)
  else (Nat.xor (Nat.xor b c) d, 3395469782)

/-- One SHA-1 round applied to the running state and round counter. -/
def sha1round (st : (Nat × Nat × Nat × Nat × Nat) × Nat) (w : Nat) :
    (Nat × Nat × Nat × Nat × Nat) × Nat :=
  let a := st.1.1
  let b := st.1.2.1
  let c := st.1.2.2.1
  let d := st.1.2.2.2.1
  let e := st.1.2.2.2.2
  let t := st.2
  let fk := sha1fk t b c d
  let temp := (rotl 5 a + fk.1 + e + fk.2 + w) % M32
  ((temp, a, rotl 30 b, c, d), t + 1)

/-- Compression of one 64-byte block into the chaining state. -/
def sha1compress (h : Nat × Nat × Nat × Nat × Nat) (block : List Nat) :
    Nat × Nat × Nat × Nat × Nat :=
  let ws := (extendWords 64 (blockWords block).reverse).reverse
  let fin := (ws.foldl sha1round (h, 0)).1
  ((h.1 + fin.1) % M32, (h.2.1 + fin.2.1) % M32, (h.2.2.1 + fin.2.2.1) % M32,
    (h.2.2.2.1 + fin.2.2.2.1) % M32, (h.2.2.2.2 + fin.2.2.2.2) % M32)

/-- Big-endian bytes of a 32-bit word. -/
def wordBytes (w : Nat) : List Nat :=
  [w / 2 ^ 24 % 256, w / 2 ^ 16 % 256, w / 2 ^ 8 % 256, w % 256]

/-- SHA-1 digest (20 bytes) of a byte list. -/
def sha1 (m : List Nat) : List Nat :=
  let padded := sha1pad m
  let blocks := chunks64 padded.length padded
  let h := blocks.foldl sha1compress (1732584193, 4023233417, 2562383102, 271733878, 3285377520)
  wordBytes h.1 ++ wordBytes h.2.1 ++ wordBytes h.2.2.1 ++ wordBytes h.2.2.2.1 ++
    wordBytes h.2.2.2.2

/-- Lower-case hex digit code point, as produced by Python `hexdigest()`. -/
def hexChar (d : Nat) : Nat := if d < 10 then d + 48 else d + 87

/-- Lower-case hex rendering of a byte list (Python `hexdigest()`), two hex
digits per byte, high nibble first. -/
def hexdigest : List Nat → PyStr
  | [] => []
  | b :: bs => hexChar (b / 16) :: hexChar (b % 16) :: hexdigest bs

/-- ASCII lower-casing of one code point (Python `str.lower` on ASCII input). -/
def lowerChar (c : Nat) : Nat := if 65 ≤ c ∧ c ≤ 90 then c + 32 else c

/-- ASCII upper-casing of one code point (Python `str.upper` on ASCII input). -/
def upperChar (c : Nat) : Nat := if 97 ≤ c ∧ c ≤ 122 then c - 32 else c

/-- Python `str.lower()`, modelled on ASCII letters. -/
def pyLower (s : PyStr) : PyStr := s.map lowerChar

/-- Python `str.upper()`, modelled on ASCII letters. -/
def pyUpper (s : PyStr) : PyStr := s.map upperChar

/-- Python `str.replace(" ", "")`: remove exactly the space code point. -/
def removeSpaces (s : PyStr) : PyStr := s.filter (fun c => c != 32)

/-- UTF-8 bytes of one code point (Python `str.encode()`). -/
def utf8Char (c : Nat) : List Nat :=
  if c < 128 then [c]
  else if c < 2048 then [192 + c / 64, 128 + c % 64]
  else if c < 65536 then [224 + c / 4096, 128 + c / 64 % 64, 128 + c % 64]
  else [240 + c / 262144, 128 + c / 4096 % 64, 128 + c / 64 % 64, 128 + c % 64]

/-- UTF-8 encoding of a Python string (Python `str.encode()`). -/
def utf8Encode (s : PyStr) : List Nat := s.bind utf8Char

/-- Embedding of `generate_property_code` (main.py lines 31-34):
`base = f"{house_number}-{street}-{city}-{state}".lower().replace(" ", "")`,
`digest = hashlib.sha1(base.encode()).hexdigest()[:6].upper()`, and the result
`f"{city[:3].upper()}-{state[:2].upper()}-{house_number}-{digest}"`. -/
def generate_property_code (house_number street city state : PyStr) : PyStr :=
  let base := removeSpaces (pyLower (house_number ++ (45 :: street) ++ (45 :: city)
    ++ (45 :: state)))
  let digest := pyUpper ((hexdigest (sha1 (utf8Encode base))).take 6)
  pyUpper (city.take 3) ++ (45 :: pyUpper (state.take 2)) ++ (45 :: house_number)
    ++ (45 :: digest)

/-! Python `str.replace` and the document-store model. -/

/-- Python `str.replace(pat, rep)` for non-empty `pat`: scan left to right,
replacing non-overlapping occurrences; fuel-based structural recursion. -/
def pyReplaceAux (pat rep : PyStr) : Nat → PyStr → PyStr
  | 0, s => s
  | _ + 1, [] => []
  | fuel + 1, c :: rest =>
    if (c :: rest).take pat.length = pat then
      rep ++ pyReplaceAux pat rep fuel ((c :: rest).drop pat.length)
    else c :: pyReplaceAux pat rep fuel rest

/-- Python `s.replace(pat, rep)`. -/
def pyReplace (s pat rep : PyStr) : PyStr := pyReplaceAux pat rep s.length s

/-- A persisted Property document (schemas.py lines 16-26) with its store id. -/
structure PropDoc where
  id : PyStr
  owner_id : PyStr
  house_number : PyStr
  street : PyStr
  city : PyStr
  state : PyStr
  pincode : Option PyStr
  description : Option PyStr
  unique_code : PyStr
  rating_avg : Rat
  rating_count : Nat
deriving DecidableEq

/-- A persisted Room document (schemas.py lines 28-35) with its store id. -/
structure RoomDoc where
  id : PyStr
  property_id : PyStr
  title : PyStr
  price : Rat
  photos : List PyStr
  available : Bool
  rating_avg : Rat
  rating_count : Nat
deriving DecidableEq

/-- A persisted Rating document (schemas.py lines 57-62) with its store id. -/
structure RatingDoc where
  id : PyStr
  user_id : PyStr
  room_id : Option PyStr
  property_id : Option PyStr
  score : Int
  comment : Option PyStr
deriving DecidableEq

/-- An email-log document, the only log collection the source ever writes
(send_email_stub, main.py lines 47-53). -/
structure EmailDoc where
  recipients : List PyStr
  subject : PyStr
  body : PyStr
deriving DecidableEq

/-- The document store: one list per collection, insertion order preserved,
plus the id counter for newly created documents. -/
structure Store where
  nextId : Nat
  properties : List PropDoc
  rooms : List RoomDoc
  ratings : List RatingDoc
  emaillog : List EmailDoc
deriving DecidableEq

/-- Request body of POST /api/properties (PropertyIn, main.py lines 123-130). -/
structure PropertyIn where
  owner_id : PyStr
  house_number : PyStr
  street : PyStr
  city : PyStr
  state : PyStr
  pincode : Option PyStr
  description : Option PyStr
deriving DecidableEq

/-- Request body of POST /api/ratings (RatingIn, main.py lines 261-266);
`score` is an arbitrary integer here, constrained only by the Rating schema. -/
structure RatingIn where
  user_id : PyStr
  room_id : Option PyStr
  property_id : Option PyStr
  score : Int
  comment : Option PyStr
deriving DecidableEq

/-- Embedding of `create_property` (main.py lines 132-138): generate the code,
resolve uniqueness against the live property collection, insert the Property
document (`rating_avg` 0.0 and `rating_count` 0 defaults from schemas.py) and
return its id together with the code.  `none` occurs only on probe-fuel
exhaustion, which `euc_success` rules out. -/
def create_property (st : Store) (p : PropertyIn) : Option (PyStr × PyStr × Store) :=
  let gen := generate_property_code p.house_number p.street p.city p.state
  match ensure_unique_code (st.properties.map (fun d => d.unique_code)) gen with
  | none => none
  | some code =>
    let doc : PropDoc :=
      { id := natToDecimal st.nextId, owner_id := p.owner_id, house_number := p.house_number,
        street := p.street, city := p.city, state := p.state, pincode := p.pincode,
        description := p.description, unique_code := code, rating_avg := 0,
        rating_count := 0 }
    some (natToDecimal st.nextId, code,
      { st with nextId := st.nextId + 1, properties := st.properties ++ [doc] })

/-- Python truthiness of an optional string: None and the empty string are falsy. -/
def strTruthy : Option PyStr → Bool
  | none => false
  | some s => !s.isEmpty

/-- String-valued field lookup on a Room document, as a MongoDB equality filter
evaluates it: a field that is absent (such as "roomid") or not string-valued
never equals a string filter value. -/
def roomStrField (d : RoomDoc) (f : PyStr) : Option PyStr :=
  if f = lit "property_id" then some d.property_id
  else if f = lit "title" then some d.title
  else none

/-- String-valued field lookup on a Property document, in the same sense. -/
def propStrField (d : PropDoc) (f : PyStr) : Option PyStr :=
  if f = lit "owner_id" then some d.owner_id
  else if f = lit "house_number" then some d.house_number
  else if f = lit "street" then some d.street
  else if f = lit "city" then some d.city
  else if f = lit "state" then some d.state
  else if f = lit "unique_code" then some d.unique_code
  else if f = lit "pincode" then d.pincode
  else if f = lit "description" then d.description
  else none

/-- Mongo update_one on the room collection: update the first matching document. -/
def updateFirstRoom (pred : RoomDoc → Bool) (f : RoomDoc → RoomDoc) :
    List RoomDoc → List RoomDoc
  | [] => []
  | d :: ds => if pred d then f d :: ds else d :: updateFirstRoom pred f ds

/-- Mongo update_one on the property collection. -/
def updateFirstProp (pred : PropDoc → Bool) (f : PropDoc → PropDoc) :
    List PropDoc → List PropDoc
  | [] => []
  | d :: ds => if pred d then f d :: ds else d :: updateFirstProp pred f ds

/-- HTTP-level failures of POST /api/ratings: `invalidInput` is the explicit
HTTPException 400 "room_id or property_id required"; `validationError` is the
pydantic error raised by the Rating schema bounds on `score` (uncaught in the
handler, so surfaced as a server error). -/
inductive RatingErr where
  | invalidInput
  | validationError
deriving DecidableEq

deriving instance DecidableEq for Except

/-- The try block of `create_rating` (main.py lines 281-289): recompute the
aggregate for the referenced subject.  The `update_one` filter key is
`key.replace("_id", "id")` as in the source, i.e. "roomid" or "propertyid". -/
def aggregateUpdate (st : Store) (p : RatingIn) : Store :=
  let onRoom := strTruthy p.room_id
  let v : PyStr := if onRoom then p.room_id.getD [] else p.property_id.getD []
  let matched := st.ratings.filter
    (fun r => (if onRoom then r.room_id else r.property_id) == some v)
  let scores := matched.map (fun r => r.score)
  if scores.isEmpty then st
  else
    let avg : Rat := (scores.sum : Rat) / (scores.length : Rat)
    let cnt := scores.length
    let bugKey := pyReplace (if onRoom then lit "room_id" else lit "property_id")
      (lit "_id") (lit "id")
    if onRoom then
      let rooms' := updateFirstRoom (fun d => roomStrField d bugKey == some v)
        (fun d => { d with rating_avg := avg, rating_count := cnt }) st.rooms
      { st with rooms := rooms' }
    else
      let props' := updateFirstProp (fun d => propStrField d bugKey == some v)
        (fun d => { d with rating_avg := avg, rating_count := cnt }) st.properties
      { st with properties := props' }

/-- The Rating document that `create_rating` persists for request `p` when the
store id counter stands at `st.nextId` (Rating(**payload.model_dump())). -/
def ratingDocOf (st : Store) (p : RatingIn) : RatingDoc :=
  { id := natToDecimal st.nextId, user_id := p.user_id, room_id := p.room_id,
    property_id := p.property_id, score := p.score, comment := p.comment }

/-- Embedding of `create_rating` (main.py lines 268-290).  The handler first
rejects when both references are falsy (HTTP 400), then the Rating schema
validates the score bounds; the Rating document is inserted, and the aggregate
recomputation runs inside try/except.  `storeFail` injects a store failure in
that try block (get_documents or update_one raising); the source swallows it
with `except Exception: pass`, writing nothing else.  The result pairs the
HTTP outcome with the store after the call. -/
def create_rating (storeFail : Bool) (st : Store) (p : RatingIn) :
    Except RatingErr PyStr × Store :=
  if !strTruthy p.room_id && !strTruthy p.property_id then
    (Except.error RatingErr.invalidInput, st)
  else if 1 ≤ p.score ∧ p.score ≤ 5 then
    let doc : RatingDoc := ratingDocOf st p
    let st1 : Store := { st with nextId := st.nextId + 1, ratings := st.ratings ++ [doc] }
    let st2 := if storeFail then st1 else aggregateUpdate st1 p
    (Except.ok doc.id, st2)
  else
    (Except.error RatingErr.validationError, st)

/-! Regex character classes and the format predicate of the spec regex
for property codes. -/

/-- The class [A-Z]. -/
def isUpperAlpha (c : Nat) : Bool := 65 ≤ c && c ≤ 90

/-- The class [0-9A-F]. -/
def isHexUpper (c : Nat) : Bool := (48 ≤ c && c ≤ 57) || (65 ≤ c && c ≤ 70)

/-- The class [0-9]. -/
def isDigitCp (c : Nat) : Bool := 48 ≤ c && c ≤ 57

/-- An ASCII letter of either case. -/
def isAsciiAlpha (c : Nat) : Bool := (65 ≤ c && c ≤ 90) || (97 ≤ c && c ≤ 122)

/-- Matching relation of the spec regex (section 8 of the spec):
a string matches iff it decomposes as 1-3 uppercase letters, a hyphen, 1-2
uppercase letters, a hyphen, a nonempty newline-free middle (the class of the
regex dot), a hyphen, exactly 6 uppercase-hex characters, and an optional
suffix of a hyphen followed by 1 or more digits. -/
def codeFormatP (l : PyStr) : Prop :=
  ∃ a b m f suf, l = a ++ 45 :: (b ++ 45 :: (m ++ 45 :: (f ++ suf))) ∧
    a ≠ [] ∧ a.length ≤ 3 ∧ (∀ c ∈ a, isUpperAlpha c = true) ∧
    b ≠ [] ∧ b.length ≤ 2 ∧ (∀ c ∈ b, isUpperAlpha c = true) ∧
    m ≠ [] ∧ (∀ c ∈ m, c ≠ 10) ∧
    f.length = 6 ∧ (∀ c ∈ f, isHexUpper c = true) ∧
    (suf = [] ∨ ∃ d, suf = 45 :: d ∧ d ≠ [] ∧ (∀ c ∈ d, isDigitCp c = true))

/-! Spec-described code generator, for the refinement claim about
`generate_property_code`. -/

/-- Join a list of strings with a separator. -/
def joinSep (sep : PyStr) : List PyStr → PyStr
  | [] => []
  | [s] => s
  | s :: rest => s ++ sep ++ joinSep sep rest

/-- Python str whitespace in the ASCII range: space and the controls
tab, newline, vertical tab, form feed, carriage return. -/
def isPyWhitespace (c : Nat) : Bool := c == 32 || (9 ≤ c && c ≤ 13)

/-- Modelled from the spec: strip ALL whitespace (spec section 4.1 says the
canonical string has "all whitespace" stripped). -/
def stripAllWhitespace (s : PyStr) : PyStr := s.filter (fun c => !isPyWhitespace c)

/-- Modelled from the spec (sections 4.1 and the C6 claim text): the generator
as the spec describes it, stripping ALL whitespace from the canonical string
before hashing.  Compared against the source `generate_property_code`. -/
def specGenerateCodeAllWs (house_number street city state : PyStr) : PyStr :=
  let canonical := stripAllWhitespace (pyLower (joinSep [45] [house_number, street, city, state]))
  let fp := pyUpper ((hexdigest (sha1 (utf8Encode canonical))).take 6)
  pyUpper (city.take 3) ++ [45] ++ pyUpper (state.take 2) ++ [45] ++ house_number ++ [45] ++ fp

/-- The spec-described generator amended to remove only space characters,
matching what the source's replace(" ", "") does. -/
def specGenerateCodeSpaces (house_number street city state : PyStr) : PyStr :=
  let canonical := removeSpaces (pyLower (joinSep [45] [house_number, street, city, state]))
  let fp := pyUpper ((hexdigest (sha1 (utf8Encode canonical))).take 6)
  pyUpper (city.take 3) ++ [45] ++ pyUpper (state.take 2) ++ [45] ++ house_number ++ [45] ++ fp

/-! Concrete stores and requests used by witnesses and counterexamples. -/

/-- An empty store. -/
def stEmpty : Store :=
  { nextId := 0, properties := [], rooms := [], ratings := [], emaillog := [] }

/-- A room document with no ratings yet, id "r1". -/
def roomR1 : RoomDoc :=
  { id := lit "r1", property_id := lit "p1", title := lit "Room 1", price := 100,
    photos := [], available := true, rating_avg := 0, rating_count := 0 }

/-- A property document with no ratings yet, id "p1". -/
def propP1 : PropDoc :=
  { id := lit "p1", owner_id := lit "o1", house_number := lit "42", street := lit "Main",
    city := lit "Springfield", state := lit "IL", pincode := none, description := none,
    unique_code := lit "SPR-IL-42-9480AE", rating_avg := 0, rating_count := 0 }

/-- A store holding one property and one room, no ratings, no logs. -/
def st0 : Store :=
  { nextId := 2, properties := [propP1], rooms := [roomR1], ratings := [], emaillog := [] }

/-- A rating request on room r1 with score 5. -/
def req1 : RatingIn :=
  { user_id := lit "u1", room_id := some (lit "r1"), property_id := none, score := 5,
    comment := none }

/-- The Rating document create_rating persists for req1 in st0. -/
def ratingDoc1 : RatingDoc :=
  { id := lit "2", user_id := lit "u1", room_id := some (lit "r1"), property_id := none,
    score := 5, comment := none }

/-- A rating request with neither reference set. -/
def reqNone : RatingIn :=
  { user_id := lit "u1", room_id := none, property_id := none, score := 3, comment := none }

/-- A rating request with an out-of-range score. -/
def reqBadScore : RatingIn :=
  { user_id := lit "u1", room_id := some (lit "r1"), property_id := none, score := 6,
    comment := none }

/-- A rating request with BOTH references set. -/
def reqBoth : RatingIn :=
  { user_id := lit "u2", room_id := some (lit "r1"), property_id := some (lit "p1"),
    score := 4, comment := none }

/-- A second both-references request, score 5. -/
def reqBoth9 : RatingIn :=
  { user_id := lit "u3", room_id := some (lit "r1"), property_id := some (lit "p1"),
    score := 5, comment := none }

/-- A property-creation request. -/
def propIn0 : PropertyIn :=
  { owner_id := lit "o1", house_number := lit "42", street := lit "Main",
    city := lit "Springfield", state := lit "IL", pincode := none, description := none }

/-- The property document create_property persists for propIn0 in stEmpty. -/
def propDoc0 : PropDoc :=
  { id := lit "0", owner_id := lit "o1", house_number := lit "42", street := lit "Main",
    city := lit "Springfield", state := lit "IL", pincode := none, description := none,
    unique_code := lit "SPR-IL-42-9480AE", rating_avg := 0, rating_count := 0 }

/-- The store after that creation. -/
def stAfterC2 : Store :=
  { nextId := 1, properties := [propDoc0], rooms := [], ratings := [], emaillog := [] }

/-- A store of 1001 colliding codes C, C-1, ..., C-1000. -/
def bigStore : List PyStr := (List.range 1001).map (candidate (lit "C"))


theorem decodeDecimal_concat (xs : List Nat) (d : Nat) :
    decodeDecimal (xs ++ [d]) = decodeDecimal xs * 10 + (d - 48) := by
  simp [decodeDecimal, List.foldl_append]

theorem decode_decimalAux : ∀ (fuel n : Nat), n < 10 ^ fuel →
    decodeDecimal (decimalAux fuel n) = n := by
  intro fuel
  induction fuel with
  | zero =>
    intro n h
    simp only [pow_zero, Nat.lt_one_iff] at h
    subst h
    rfl
  | succ f ih =>
    intro n h
    by_cases h10 : n < 10
    · simp only [decimalAux, if_pos h10, decodeDecimal, List.foldl_cons, List.foldl_nil]
      omega
    · have hdiv : n / 10 < 10 ^ f := by
        have : n < 10 ^ f * 10 := by
          have := h
          rw [pow_succ] at this
          omega
        omega
      simp only [decimalAux, if_neg h10]
      rw [decodeDecimal_concat, ih (n / 10) hdiv]
      omega

theorem lt_ten_pow_succ (n : Nat) : n < 10 ^ (n + 1) :=
  calc n < 2 ^ n := Nat.lt_two_pow n
    _ ≤ 10 ^ n := Nat.pow_le_pow_left (by omega) n
    _ ≤ 10 ^ (n + 1) := Nat.pow_le_pow_right (by omega) (Nat.le_succ n)

theorem natToDecimal_injective : Function.Injective natToDecimal := by
  intro a b h
  have ha := decode_decimalAux (a + 1) a (lt_ten_pow_succ a)
  have hb := decode_decimalAux (b + 1) b (lt_ten_pow_succ b)
  rw [show decimalAux (a + 1) a = natToDecimal a from rfl, h] at ha
  rw [show decimalAux (b + 1) b = natToDecimal b from rfl] at hb
  omega

theorem candidate_injective (code : PyStr) : Function.Injective (candidate code) := by
  intro a b h
  match a, b with
  | 0, 0 => rfl
  | 0, Nat.succ b =>
    exfalso
    have hl := congrArg List.length h
    simp [candidate] at hl
  | Nat.succ a, 0 =>
    exfalso
    have hl := congrArg List.length h
    simp [candidate] at hl
  | Nat.succ a, Nat.succ b =>
    simp only [candidate] at h
    have h2 := List.append_cancel_left h
    have h3 : natToDecimal (a + 1) = natToDecimal (b + 1) := by
      injection h2
    have := natToDecimal_injective h3
    omega

theorem nodup_subset_length {l1 l2 : List PyStr} (h : l1.Nodup) (hs : l1 ⊆ l2) :
    l1.length ≤ l2.length := by
  have h1 : l1.toFinset.card = l1.length := List.toFinset_card_of_nodup h
  have h2 : l1.toFinset ⊆ l2.toFinset := by
    intro x hx
    simp only [List.mem_toFinset] at hx ⊢
    exact hs hx
  have h3 : l2.toFinset.card ≤ l2.length := l2.toFinset_card_le
  have h4 := Finset.card_le_card h2
  omega

theorem euc_go_not_mem (codes : List PyStr) (code : PyStr) :
    ∀ (fuel k : Nat) (c : PyStr), euc_go codes code k fuel = some c → c ∉ codes := by
  intro fuel
  induction fuel with
  | zero => intro k c h; simp [euc_go] at h
  | succ f ih =>
    intro k c h
    by_cases hc : codes.contains (candidate code k)
    · rw [euc_go, if_pos hc] at h
      exact ih (k + 1) c h
    · rw [euc_go, if_neg hc] at h
      cases h
      intro hmem
      exact hc (List.elem_iff.mpr hmem)

theorem euc_go_finds (codes : List PyStr) (code : PyStr) :
    ∀ (fuel k j : Nat), k ≤ j → j < k + fuel →
      (∀ i, k ≤ i → i < j → candidate code i ∈ codes) →
      candidate code j ∉ codes →
      euc_go codes code k fuel = some (candidate code j) := by
  intro fuel
  induction fuel with
  | zero => intro k j hkj hlt _ _; omega
  | succ f ih =>
    intro k j hkj hlt hall habs
    by_cases hk : k = j
    · subst hk
      have hc : codes.contains (candidate code k) = false := by
        by_contra hcc
        simp only [Bool.not_eq_false] at hcc
        exact habs (List.elem_iff.mp hcc)
      rw [euc_go, hc]
      simp
    · have hmem : candidate code k ∈ codes := hall k (le_refl k) (by omega)
      have hc : codes.contains (candidate code k) = true := List.elem_iff.mpr hmem
      rw [euc_go, hc]
      simp only [if_true]
      exact ih (k + 1) j (by omega) (by omega) (fun i hi1 hi2 => hall i (by omega) hi2) habs

theorem probe_index_le_length (codes : List PyStr) (code : PyStr) (k : Nat)
    (hall : ∀ i, i < k → candidate code i ∈ codes) : k ≤ codes.length := by
  have hsub : ((List.range k).map (candidate code)) ⊆ codes := by
    intro x hx
    rw [List.mem_map] at hx
    obtain ⟨j, hj, rfl⟩ := hx
    exact hall j (List.mem_range.mp hj)
  have hnd : ((List.range k).map (candidate code)).Nodup :=
    (List.nodup_range k).map (candidate_injective code)
  have := nodup_subset_length hnd hsub
  simpa using this

theorem euc_first_absent (codes : List PyStr) (code : PyStr) (k : Nat)
    (hall : ∀ i, i < k → candidate code i ∈ codes)
    (habs : candidate code k ∉ codes) :
    ensure_unique_code codes code = some (candidate code k) := by
  have hk : k ≤ codes.length := probe_index_le_length codes code k hall
  exact euc_go_finds codes code (codes.length + 1) 0 k (Nat.zero_le k) (by omega)
    (fun i _ hi => hall i hi) habs

theorem exists_absent_candidate (codes : List PyStr) (code : PyStr) :
    ∃ j, j ≤ codes.length ∧ candidate code j ∉ codes := by
  by_contra hc
  push_neg at hc
  have hall : ∀ i, i < codes.length + 1 → candidate code i ∈ codes := by
    intro i hi
    exact hc i (by omega)
  have := probe_index_le_length codes code (codes.length + 1) hall
  omega

theorem euc_success (codes : List PyStr) (code : PyStr) :
    ∃ c, ensure_unique_code codes code = some c ∧ c ∉ codes := by
  classical
  have hex : ∃ j, candidate code j ∉ codes := by
    obtain ⟨j, _, hj⟩ := exists_absent_candidate codes code
    exact ⟨j, hj⟩
  let j0 := Nat.find hex
  have hj0 : candidate code j0 ∉ codes := Nat.find_spec hex
  have hall : ∀ i, i < j0 → candidate code i ∈ codes := by
    intro i hi
    by_contra hni
    exact absurd (Nat.find_min' hex hni) (by omega)
  exact ⟨candidate code j0, euc_first_absent codes code j0 hall hj0, hj0⟩

theorem pyReplaceAux_space : ∀ (fuel : Nat) (s : PyStr), s.length ≤ fuel →
    pyReplaceAux [32] [] fuel s = s.filter (fun c => c != 32) := by
  intro fuel
  induction fuel with
  | zero =>
    intro s hs
    have h0 : s = [] := List.eq_nil_of_length_eq_zero (by omega)
    subst h0
    rfl
  | succ f ih =>
    intro s hs
    cases s with
    | nil => rfl
    | cons c rest =>
      have hrest : rest.length ≤ f := by simp at hs; omega
      by_cases hc : c = 32
      · subst hc
        simp only [pyReplaceAux]
        rw [if_pos (by rfl)]
        simp [ih rest hrest]
      · simp only [pyReplaceAux]
        rw [if_neg (by simp [hc])]
        simp [ih rest hrest, hc]

/-- Fidelity of `removeSpaces`: it is exactly Python replace(" ", ""). -/
theorem removeSpaces_eq_pyReplace (s : PyStr) :
    removeSpaces s = pyReplace s (lit " ") (lit "") := by
  rw [show (lit " " : PyStr) = [32] from by decide, show (lit "" : PyStr) = [] from by decide]
  unfold pyReplace
  exact (pyReplaceAux_space s.length s (le_refl _)).symm

theorem euc_go_shape (codes : List PyStr) (code : PyStr) :
    ∀ (fuel k : Nat) (c : PyStr), euc_go codes code k fuel = some c →
      ∃ j, c = candidate code j := by
  intro fuel
  induction fuel with
  | zero => intro k c h; simp [euc_go] at h
  | succ f ih =>
    intro k c h
    by_cases hc : codes.contains (candidate code k)
    · rw [euc_go, if_pos hc] at h
      exact ih (k + 1) c h
    · rw [euc_go, if_neg hc] at h
      cases h
      exact ⟨k, rfl⟩

theorem lowerChar_eq_imp_upperChar {a b : Nat} (h : lowerChar a = lowerChar b) :
    upperChar a = upperChar b := by
  unfold lowerChar at h
  unfold upperChar
  split_ifs at h ⊢ <;> omega

theorem pyLower_eq_imp_pyUpper : ∀ {s t : PyStr}, pyLower s = pyLower t →
    pyUpper s = pyUpper t := by
  intro s
  induction s with
  | nil =>
    intro t h
    cases t with
    | nil => rfl
    | cons b t => simp [pyLower] at h
  | cons a s ih =>
    intro t h
    cases t with
    | nil => simp [pyLower] at h
    | cons b t =>
      simp only [pyLower, List.map_cons, List.cons.injEq] at h
      simp only [pyUpper, List.map_cons, List.cons.injEq]
      exact ⟨lowerChar_eq_imp_upperChar h.1, ih h.2⟩

theorem updateFirstRoom_noop (pred : RoomDoc → Bool) (f : RoomDoc → RoomDoc)
    (hp : ∀ d, pred d = false) : ∀ l : List RoomDoc, updateFirstRoom pred f l = l := by
  intro l
  induction l with
  | nil => rfl
  | cons d ds ih => simp [updateFirstRoom, hp d, ih]

theorem updateFirstProp_noop (pred : PropDoc → Bool) (f : PropDoc → PropDoc)
    (hp : ∀ d, pred d = false) : ∀ l : List PropDoc, updateFirstProp pred f l = l := by
  intro l
  induction l with
  | nil => rfl
  | cons d ds ih => simp [updateFirstProp, hp d, ih]

/-- No Room document has a field named "roomid". -/
theorem roomStrField_roomid (d : RoomDoc) : roomStrField d (lit "roomid") = none := by
  unfold roomStrField
  rw [if_neg (by decide), if_neg (by decide)]

/-- No Property document has a field named "propertyid". -/
theorem propStrField_propertyid (d : PropDoc) : propStrField d (lit "propertyid") = none := by
  unfold propStrField
  rw [if_neg (by decide), if_neg (by decide), if_neg (by decide), if_neg (by decide),
    if_neg (by decide), if_neg (by decide), if_neg (by decide), if_neg (by decide)]

/-- The aggregate recomputation of create_rating never changes the store: the
update_one filter key is "roomid" / "propertyid" (key.replace("_id", "id")),
fields that no Room or Property document carries, so update_one matches no
document regardless of the store contents. -/
theorem aggregateUpdate_noop (st : Store) (p : RatingIn) : aggregateUpdate st p = st := by
  unfold aggregateUpdate
  by_cases hr : strTruthy p.room_id
  · simp only [hr, if_true]
    split
    · rfl
    · rw [show pyReplace (lit "room_id") (lit "_id") (lit "id") = lit "roomid" from by decide]
      rw [updateFirstRoom_noop _ _ (fun d => by simp [roomStrField_roomid d]) st.rooms]
  · simp only [hr, Bool.false_eq_true, if_false]
    split
    · rfl
    · rw [show pyReplace (lit "property_id") (lit "_id") (lit "id") = lit "propertyid" from
        by decide]
      rw [updateFirstProp_noop _ _ (fun d => by simp [propStrField_propertyid d]) st.properties]

/-- A successful create_rating call: the Rating document is appended, the id is
returned, and nothing else in the store changes (whether or not the aggregate
write fails). -/
theorem create_rating_ok (storeFail : Bool) (st : Store) (p : RatingIn)
    (h1 : strTruthy p.room_id = true ∨ strTruthy p.property_id = true)
    (hs : 1 ≤ p.score ∧ p.score ≤ 5) :
    create_rating storeFail st p =
      (Except.ok (natToDecimal st.nextId),
        { st with nextId := st.nextId + 1, ratings := st.ratings ++ [ratingDocOf st p] }) := by
  unfold create_rating
  have hb : (!strTruthy p.room_id && !strTruthy p.property_id) = false := by
    rcases h1 with h | h <;> simp [h]
  simp only [hb, Bool.false_eq_true, if_false, if_pos hs]
  cases storeFail
  · simp [aggregateUpdate_noop, ratingDocOf]
  · simp [ratingDocOf]

/-- C1: evaluation of the code at the failing input.  In the store st0 holding
the single room r1 with rating_avg 0 and rating_count 0, the rating-creation
call req1 (room r1, score 5) succeeds and persists the Rating record, and that
record is the single Rating referencing r1 (so the arithmetic mean is 5 and
the count is 1) — yet the room document is left with rating_avg 0 and
rating_count 0: the update_one filter field "roomid" (key.replace("_id","id"))
matches no room document, so the claimed invariant is violated right after a
successful rating creation. -/
theorem c1_aggregate_invariant_violated :
    (create_rating false st0 req1).1 = Except.ok (lit "2") ∧
    ((create_rating false st0 req1).2.ratings.filter
      (fun r => r.room_id == some (lit "r1"))).map (fun r => r.score) = [5] ∧
    (create_rating false st0 req1).2.rooms = [roomR1] ∧
    roomR1.rating_count = 0 ∧ roomR1.rating_avg = 0 := by
  decide

/-- C2: create_property only ever inserts a property whose unique_code is
absent from the store at call time, the persisted code list is extended by
exactly that code, and distinctness of the stored codes is preserved by every
successful property creation. -/
theorem c2_unique_code_preserved (st : Store) (p : PropertyIn) (pid code : PyStr)
    (st' : Store) (h : create_property st p = some (pid, code, st')) :
    code ∉ st.properties.map (fun d => d.unique_code) ∧
    st'.properties.map (fun d => d.unique_code) =
      st.properties.map (fun d => d.unique_code) ++ [code] ∧
    ((st.properties.map (fun d => d.unique_code)).Nodup →
      (st'.properties.map (fun d => d.unique_code)).Nodup) := by
  unfold create_property at h
  cases heq : ensure_unique_code (st.properties.map (fun d => d.unique_code))
      (generate_property_code p.house_number p.street p.city p.state) with
  | none =>
    simp only [heq] at h
    exact absurd h (by simp)
  | some c =>
    simp only [heq, Option.some.injEq, Prod.mk.injEq] at h
    obtain ⟨h1, h2, h3⟩ := h
    subst h2
    subst h3
    have habs : c ∉ st.properties.map (fun d => d.unique_code) :=
      euc_go_not_mem (st.properties.map (fun d => d.unique_code))
        (generate_property_code p.house_number p.street p.city p.state)
        ((st.properties.map (fun d => d.unique_code)).length + 1) 0 c heq
    refine ⟨habs, by simp, ?_⟩
    intro hnd
    simp only [List.map_append, List.map_cons, List.map_nil]
    rw [List.nodup_append]
    refine ⟨hnd, List.nodup_singleton _, ?_⟩
    intro a ha hmem
    simp only [List.mem_singleton] at hmem
    subst hmem
    exact habs ha

/-- Witness for C2 at a concrete creation on the empty store. -/
theorem c2_unique_code_preserved_witness :
    lit "SPR-IL-42-9480AE" ∉ stEmpty.properties.map (fun d => d.unique_code) ∧
    stAfterC2.properties.map (fun d => d.unique_code) =
      stEmpty.properties.map (fun d => d.unique_code) ++ [lit "SPR-IL-42-9480AE"] ∧
    ((stEmpty.properties.map (fun d => d.unique_code)).Nodup →
      (stAfterC2.properties.map (fun d => d.unique_code)).Nodup) :=
  c2_unique_code_preserved stEmpty propIn0 (lit "0") (lit "SPR-IL-42-9480AE") stAfterC2
    (by decide)

/-- C3: suffix probing is deterministic and sequential: whenever every candidate
code-i with i below k is present in the store and code-k is absent (code-0
standing for the bare code), the probe returns exactly code-k — the smallest
absent suffix; in particular it returns the code itself when it is absent. -/
theorem c3_probe_returns_first_absent (codes : List PyStr) (code : PyStr) (k : Nat)
    (hall : ∀ i, i < k → candidate code i ∈ codes)
    (habs : candidate code k ∉ codes) :
    ensure_unique_code codes code = some (candidate code k) :=
  euc_first_absent codes code k hall habs

/-- Witness for C3: a store already holding C, C-1 and C-2 yields C-3. -/
theorem c3_probe_returns_first_absent_witness :
    ensure_unique_code [lit "C", lit "C-1", lit "C-2"] (lit "C") = some (lit "C-3") := by
  have h := c3_probe_returns_first_absent [lit "C", lit "C-1", lit "C-2"] (lit "C") 3
    (by decide) (by decide)
  rw [show candidate (lit "C") 3 = lit "C-3" from by decide] at h
  exact h

/-- C4 (amended): a request with neither reference truthy fails with the
Invalid-Input error and performs no writes; a request with a reference but a
score outside [1,5] fails through the Rating schema validation error (a server
error, not the Invalid-Input one) and performs no writes; but a request with
BOTH references set and a valid score does NOT fail — it succeeds. -/
theorem c4_validation_amended (st : Store) (p : RatingIn) :
    (strTruthy p.room_id = false → strTruthy p.property_id = false →
      create_rating false st p = (Except.error RatingErr.invalidInput, st)) ∧
    ((strTruthy p.room_id = true ∨ strTruthy p.property_id = true) →
      ¬(1 ≤ p.score ∧ p.score ≤ 5) →
      create_rating false st p = (Except.error RatingErr.validationError, st)) ∧
    ((strTruthy p.room_id = true ∨ strTruthy p.property_id = true) →
      1 ≤ p.score → p.score ≤ 5 →
      (create_rating false st p).1 = Except.ok (natToDecimal st.nextId)) := by
  refine ⟨?_, ?_, ?_⟩
  · intro h1 h2
    unfold create_rating
    simp [h1, h2]
  · intro h1 h2
    unfold create_rating
    have hb : (!strTruthy p.room_id && !strTruthy p.property_id) = false := by
      rcases h1 with h | h <;> simp [h]
    simp [hb, h2]
  · intro h1 hs1 hs2
    rw [create_rating_ok false st p h1 ⟨hs1, hs2⟩]

/-- Witness for C4 at concrete requests: neither-set fails with Invalid-Input,
score 6 fails with the validation error, both-set succeeds. -/
theorem c4_validation_amended_witness :
    create_rating false st0 reqNone = (Except.error RatingErr.invalidInput, st0) ∧
    create_rating false st0 reqBadScore = (Except.error RatingErr.validationError, st0) ∧
    (create_rating false st0 reqBoth).1 = Except.ok (natToDecimal st0.nextId) :=
  ⟨(c4_validation_amended st0 reqNone).1 (by decide) (by decide),
   (c4_validation_amended st0 reqBadScore).2.1 (by decide) (by decide),
   (c4_validation_amended st0 reqBoth).2.2 (by decide) (by decide) (by decide)⟩

/-- C4 counterexample: the request reqBoth with both room_id and property_id
set does not fail with Invalid-Input as claimed — create_rating accepts it and
returns the new rating id (the handler only rejects when both are falsy). -/
theorem c4_both_set_counterexample :
    (create_rating false st0 reqBoth).1 = Except.ok (lit "2") := by
  decide

/-- C7 (amended): when the aggregate write fails after the Rating record was
persisted, the operation still returns the new rating id and the Rating record
stays in place (it was persisted before the aggregate step and is never rolled
back); but nothing is logged: the email log — the only log collection the
source ever writes — and every other collection are left unchanged, the
failure being swallowed by the bare except/pass. -/
theorem c7_failure_behavior_amended (st : Store) (p : RatingIn)
    (h1 : strTruthy p.room_id = true ∨ strTruthy p.property_id = true)
    (hs : 1 ≤ p.score ∧ p.score ≤ 5) :
    (create_rating true st p).1 = Except.ok (natToDecimal st.nextId) ∧
    (create_rating true st p).2.ratings = st.ratings ++ [ratingDocOf st p] ∧
    (create_rating true st p).2.emaillog = st.emaillog ∧
    (create_rating true st p).2.rooms = st.rooms ∧
    (create_rating true st p).2.properties = st.properties := by
  rw [create_rating_ok true st p h1 hs]
  exact ⟨rfl, rfl, rfl, rfl, rfl⟩

/-- Witness for C7 at the concrete failing aggregate write in st0. -/
theorem c7_failure_behavior_amended_witness :
    (create_rating true st0 req1).1 = Except.ok (natToDecimal st0.nextId) ∧
    (create_rating true st0 req1).2.ratings = st0.ratings ++ [ratingDocOf st0 req1] ∧
    (create_rating true st0 req1).2.emaillog = st0.emaillog ∧
    (create_rating true st0 req1).2.rooms = st0.rooms ∧
    (create_rating true st0 req1).2.properties = st0.properties :=
  c7_failure_behavior_amended st0 req1 (by decide) (by decide)

/-- C7 counterexample: at the concrete input st0/req1 with the aggregate write
failing, the full final store is exactly the initial store plus the Rating
record: the email log stays empty and no collection records the inconsistency,
refuting the claim that the system logs it. -/
theorem c7_no_logging_counterexample :
    create_rating true st0 req1 =
      (Except.ok (lit "2"),
        { nextId := 3, properties := [propP1], rooms := [roomR1], ratings := [ratingDoc1],
          emaillog := [] }) := by
  decide

/-- C8 (amended): the probe of ensure_unique_code has no cap and never fails:
for every store state it terminates, returning within store-size + 1 attempts
a code absent from the store; no Store-Exhausted error exists in the code. -/
theorem c8_probe_always_terminates (codes : List PyStr) (code : PyStr) :
    ∃ c, ensure_unique_code codes code = some c ∧ c ∉ codes :=
  euc_success codes code

/-- C8 counterexample: on the store bigStore already holding the 1001 colliding
codes C, C-1, ..., C-1000 the probe runs past 1000 attempts and still
succeeds, returning C-1001 — it does not fail with any Store-Exhausted error
once a 1000-attempt cap would have been reached, because no cap exists. -/
theorem c8_no_cap_counterexample :
    ensure_unique_code bigStore (lit "C") = some (candidate (lit "C") 1001) := by
  apply euc_first_absent
  · intro i hi
    simp only [bigStore, List.mem_map]
    exact ⟨i, List.mem_range.mpr (by omega), rfl⟩
  · intro hmem
    simp only [bigStore, List.mem_map] at hmem
    obtain ⟨j, hj, hje⟩ := hmem
    have hinj := candidate_injective (lit "C") hje
    rw [List.mem_range] at hj
    omega

/-- C9 (amended): a request with both room_id and property_id set succeeds and
persists a Rating record carrying both references; the room branch is taken
(room_id is checked first), but the room aggregate recomputation matches no
document (filter field "roomid"), so the store is unchanged except for the
appended Rating: in particular the referenced property's — and also the
room's — rating_avg and rating_count are left unchanged. -/
theorem c9_both_set_amended (st : Store) (p : RatingIn)
    (hr : strTruthy p.room_id = true) (_hp : strTruthy p.property_id = true)
    (hs : 1 ≤ p.score ∧ p.score ≤ 5) :
    create_rating false st p =
      (Except.ok (natToDecimal st.nextId),
        { st with nextId := st.nextId + 1, ratings := st.ratings ++ [ratingDocOf st p] }) ∧
    (ratingDocOf st p).room_id = p.room_id ∧
    (ratingDocOf st p).property_id = p.property_id :=
  ⟨create_rating_ok false st p (Or.inl hr) hs, rfl, rfl⟩

/-- Witness for C9 at the concrete both-references request reqBoth9 in st0. -/
theorem c9_both_set_amended_witness :
    create_rating false st0 reqBoth9 =
      (Except.ok (natToDecimal st0.nextId),
        { st0 with nextId := st0.nextId + 1,
                   ratings := st0.ratings ++ [ratingDocOf st0 reqBoth9] }) ∧
    (ratingDocOf st0 reqBoth9).room_id = reqBoth9.room_id ∧
    (ratingDocOf st0 reqBoth9).property_id = reqBoth9.property_id :=
  c9_both_set_amended st0 reqBoth9 (by decide) (by decide) (by decide)

/-- C9 counterexample: for the both-references request reqBoth9 (score 5) in
st0, the call succeeds and the new Rating is the only one referencing room r1,
yet the room collection is unchanged and r1 still has rating_count 0 — the
room's aggregate is NOT recomputed, contrary to the claim. -/
theorem c9_room_aggregate_not_recomputed :
    (create_rating false st0 reqBoth9).1 = Except.ok (lit "2") ∧
    (create_rating false st0 reqBoth9).2.rooms = [roomR1] ∧
    roomR1.rating_count = 0 ∧
    ((create_rating false st0 reqBoth9).2.ratings.filter
      (fun r => r.room_id == some (lit "r1"))).length = 1 := by
  decide

/-- C10: generate_property_code is insensitive to the letter case of street,
city and state: two inputs with identical house_number whose street, city and
state agree up to ASCII case produce identical codes (the prefixes are
upper-cased and the fingerprint is computed over the lower-cased canonical
string). -/
theorem c10_case_insensitive (house street city state street' city' state' : PyStr)
    (hs : pyLower street = pyLower street') (hc : pyLower city = pyLower city')
    (hst : pyLower state = pyLower state') :
    generate_property_code house street city state =
      generate_property_code house street' city' state' := by
  unfold generate_property_code
  have htake3 : pyUpper (city.take 3) = pyUpper (city'.take 3) := by
    apply pyLower_eq_imp_pyUpper
    simp only [pyLower] at hc ⊢
    rw [List.map_take, List.map_take, hc]
  have htake2 : pyUpper (state.take 2) = pyUpper (state'.take 2) := by
    apply pyLower_eq_imp_pyUpper
    simp only [pyLower] at hst ⊢
    rw [List.map_take, List.map_take, hst]
  have hbase : pyLower (house ++ (45 :: street) ++ (45 :: city) ++ (45 :: state)) =
      pyLower (house ++ (45 :: street') ++ (45 :: city') ++ (45 :: state')) := by
    simp only [pyLower, List.map_append, List.map_cons] at hs hc hst ⊢
    rw [hs, hc, hst]
  rw [htake3, htake2, hbase]

/-- Witness for C10: changing only the case of street, city and state leaves
the generated code unchanged. -/
theorem c10_case_insensitive_witness :
    generate_property_code (lit "5") (lit "Main") (lit "Springfield") (lit "IL") =
      generate_property_code (lit "5") (lit "MAIN") (lit "springfield") (lit "il") :=
  c10_case_insensitive (lit "5") (lit "Main") (lit "Springfield") (lit "IL")
    (lit "MAIN") (lit "springfield") (lit "il") (by decide) (by decide) (by decide)

theorem sha1_length (m : List Nat) : (sha1 m).length = 20 := by
  simp [sha1, wordBytes]

theorem sha1_bytes_lt (m : List Nat) : ∀ b ∈ sha1 m, b < 256 := by
  intro b hb
  simp [sha1, wordBytes] at hb
  omega

theorem hexdigest_length (bs : List Nat) : (hexdigest bs).length = 2 * bs.length := by
  induction bs with
  | nil => rfl
  | cons b bs ih =>
    simp only [hexdigest, List.length_cons, ih]
    omega

theorem hexChar_range (d : Nat) (h : d < 16) :
    (48 ≤ hexChar d ∧ hexChar d ≤ 57) ∨ (97 ≤ hexChar d ∧ hexChar d ≤ 102) := by
  unfold hexChar
  split_ifs <;> omega

theorem hexdigest_chars (bs : List Nat) (h : ∀ b ∈ bs, b < 256) :
    ∀ c ∈ hexdigest bs, (48 ≤ c ∧ c ≤ 57) ∨ (97 ≤ c ∧ c ≤ 102) := by
  induction bs with
  | nil => intro c hc; simp [hexdigest] at hc
  | cons b bs ih =>
    intro c hc
    have hb : b < 256 := h b (by simp)
    simp only [hexdigest, List.mem_cons] at hc
    rcases hc with hc | hc | hc
    · subst hc
      exact hexChar_range (b / 16) (by omega)
    · subst hc
      exact hexChar_range (b % 16) (by omega)
    · exact ih (fun x hx => h x (by simp [hx])) c hc

theorem digest_take6_format (m : List Nat) :
    (pyUpper ((hexdigest (sha1 m)).take 6)).length = 6 ∧
    ∀ c ∈ pyUpper ((hexdigest (sha1 m)).take 6), isHexUpper c = true := by
  have hlen : (hexdigest (sha1 m)).length = 40 := by
    rw [hexdigest_length, sha1_length]
  constructor
  · unfold pyUpper
    rw [List.length_map, List.length_take, hlen]
    decide
  · intro c hc
    simp only [pyUpper, List.mem_map] at hc
    obtain ⟨c', hc', rfl⟩ := hc
    have hmem : c' ∈ hexdigest (sha1 m) := List.mem_of_mem_take hc'
    have hr := hexdigest_chars (sha1 m) (sha1_bytes_lt m) c' hmem
    simp only [isHexUpper, upperChar, Bool.or_eq_true, Bool.and_eq_true, decide_eq_true_eq]
    split_ifs <;> omega

theorem decimalAux_digits : ∀ (fuel n : Nat), ∀ c ∈ decimalAux fuel n, isDigitCp c = true := by
  intro fuel
  induction fuel with
  | zero => intro n c hc; simp [decimalAux] at hc
  | succ f ih =>
    intro n c hc
    simp only [decimalAux] at hc
    by_cases h10 : n < 10
    · rw [if_pos h10] at hc
      simp only [List.mem_singleton] at hc
      subst hc
      simp only [isDigitCp, Bool.and_eq_true, decide_eq_true_eq]
      omega
    · rw [if_neg h10] at hc
      rw [List.mem_append] at hc
      rcases hc with hc | hc
      · exact ih (n / 10) c hc
      · simp only [List.mem_singleton] at hc
        subst hc
        simp only [isDigitCp, Bool.and_eq_true, decide_eq_true_eq]
        omega

theorem natToDecimal_digits (n : Nat) : ∀ c ∈ natToDecimal n, isDigitCp c = true :=
  decimalAux_digits (n + 1) n

theorem natToDecimal_ne_nil (n : Nat) : natToDecimal n ≠ [] := by
  unfold natToDecimal
  by_cases h : n < 10 <;> simp [decimalAux, h]

theorem upperChar_alpha {c : Nat} (h : isAsciiAlpha c = true) :
    isUpperAlpha (upperChar c) = true := by
  simp only [isAsciiAlpha, Bool.or_eq_true, Bool.and_eq_true, decide_eq_true_eq] at h
  simp only [isUpperAlpha, upperChar, Bool.and_eq_true, decide_eq_true_eq]
  split_ifs <;> omega

theorem take_ne_nil_of_ne_nil {l : PyStr} (h : l ≠ []) (n : Nat) (hn : 0 < n) :
    l.take n ≠ [] := by
  cases l with
  | nil => exact absurd rfl h
  | cons a t =>
    cases n with
    | zero => omega
    | succ m => simp

/-- C5 (amended): for every store state and every input whose house_number is
nonempty and newline-free and whose first min(3,len) characters of city and
first min(2,len) characters of state are ASCII letters, the property code that
creation persists (generation followed by uniqueness resolution) matches the
spec regex; the original claim, quantifying over city and state of arbitrary
content, is refuted by the counterexample below. -/
theorem c5_format_amended (codes : List PyStr) (house street city state : PyStr)
    (hh : house ≠ []) (hh10 : ∀ c ∈ house, c ≠ 10)
    (hcity : city ≠ []) (hstate : state ≠ [])
    (hc3 : ∀ c ∈ city.take 3, isAsciiAlpha c = true)
    (hs2 : ∀ c ∈ state.take 2, isAsciiAlpha c = true) :
    ∃ res, ensure_unique_code codes (generate_property_code house street city state) =
      some res ∧ codeFormatP res := by
  obtain ⟨res, hres, -⟩ := euc_success codes (generate_property_code house street city state)
  obtain ⟨j, rfl⟩ := euc_go_shape _ _ _ _ _ hres
  refine ⟨_, hres, ?_⟩
  have hgen : generate_property_code house street city state =
      pyUpper (city.take 3) ++ (45 :: pyUpper (state.take 2)) ++ (45 :: house) ++
        (45 :: pyUpper ((hexdigest (sha1 (utf8Encode (removeSpaces (pyLower (house ++
          (45 :: street) ++ (45 :: city) ++ (45 :: state))))))).take 6)) := rfl
  have hA1 : pyUpper (city.take 3) ≠ [] := by
    unfold pyUpper
    intro hmap
    exact take_ne_nil_of_ne_nil hcity 3 (by omega) (List.map_eq_nil.mp hmap)
  have hA2 : (pyUpper (city.take 3)).length ≤ 3 := by
    unfold pyUpper
    rw [List.length_map, List.length_take]
    omega
  have hA3 : ∀ c ∈ pyUpper (city.take 3), isUpperAlpha c = true := by
    intro c hc
    simp only [pyUpper, List.mem_map] at hc
    obtain ⟨c', hc', rfl⟩ := hc
    exact upperChar_alpha (hc3 c' hc')
  have hB1 : pyUpper (state.take 2) ≠ [] := by
    unfold pyUpper
    intro hmap
    exact take_ne_nil_of_ne_nil hstate 2 (by omega) (List.map_eq_nil.mp hmap)
  have hB2 : (pyUpper (state.take 2)).length ≤ 2 := by
    unfold pyUpper
    rw [List.length_map, List.length_take]
    omega
  have hB3 : ∀ c ∈ pyUpper (state.take 2), isUpperAlpha c = true := by
    intro c hc
    simp only [pyUpper, List.mem_map] at hc
    obtain ⟨c', hc', rfl⟩ := hc
    exact upperChar_alpha (hs2 c' hc')
  obtain ⟨hF1, hF2⟩ := digest_take6_format (utf8Encode (removeSpaces (pyLower (house ++
    (45 :: street) ++ (45 :: city) ++ (45 :: state)))))
  cases j with
  | zero =>
    refine ⟨pyUpper (city.take 3), pyUpper (state.take 2), house, _, [],
      ?_, hA1, hA2, hA3, hB1, hB2, hB3, hh, hh10, hF1, hF2, Or.inl rfl⟩
    rw [show candidate (generate_property_code house street city state) 0 =
      generate_property_code house street city state from rfl, hgen]
    simp [List.append_assoc]
  | succ j =>
    refine ⟨pyUpper (city.take 3), pyUpper (state.take 2), house, _,
      45 :: natToDecimal (j + 1),
      ?_, hA1, hA2, hA3, hB1, hB2, hB3, hh, hh10, hF1, hF2,
      Or.inr ⟨natToDecimal (j + 1), rfl, natToDecimal_ne_nil (j + 1),
        natToDecimal_digits (j + 1)⟩⟩
    rw [show candidate (generate_property_code house street city state) (j + 1) =
      generate_property_code house street city state ++ (45 :: natToDecimal (j + 1)) from rfl,
      hgen]
    simp [List.append_assoc]

/-- Witness for C5 at the Springfield/IL scenario on the empty store. -/
theorem c5_format_amended_witness :
    ∃ res, ensure_unique_code [] (generate_property_code (lit "42") (lit "Main")
      (lit "Springfield") (lit "IL")) = some res ∧ codeFormatP res :=
  c5_format_amended [] (lit "42") (lit "Main") (lit "Springfield") (lit "IL")
    (by decide) (by decide) (by decide) (by decide) (by decide) (by decide)

theorem codeFormatP_head {l : PyStr} (h : codeFormatP l) :
    ∃ c rest, l = c :: rest ∧ isUpperAlpha c = true := by
  obtain ⟨a, b, m, f, suf, heq, ha, -, hau, -⟩ := h
  cases a with
  | nil => exact absurd rfl ha
  | cons c a' =>
    exact ⟨c, a' ++ 45 :: (b ++ 45 :: (m ++ 45 :: (f ++ suf))), by simpa using heq,
      hau c (by simp)⟩

/-- C5 counterexample: the input city "1a", state "IL", house_number "42" has
house_number nonempty and city and state of length at least 1, yet the
generated-and-uniqueness-resolved code starts with the character "1" and so
cannot match the regex, whose first character class is [A-Z]. -/
theorem c5_format_counterexample :
    ensure_unique_code [] (generate_property_code (lit "42") (lit "s") (lit "1a") (lit "IL")) =
      some (generate_property_code (lit "42") (lit "s") (lit "1a") (lit "IL")) ∧
    ¬ codeFormatP (generate_property_code (lit "42") (lit "s") (lit "1a") (lit "IL")) := by
  constructor
  · rfl
  · intro hcf
    obtain ⟨c, rest, heq, hu⟩ := codeFormatP_head hcf
    have hhead : (generate_property_code (lit "42") (lit "s") (lit "1a") (lit "IL")).head? =
        some 49 := rfl
    rw [heq] at hhead
    simp only [List.head?_cons, Option.some.injEq] at hhead
    subst hhead
    exact absurd hu (by decide)

/-- C6 (amended): generate_property_code agrees, for every input, with the
spec-described generator once "all whitespace stripped" is amended to "space
characters removed": first 3 characters of city upper-cased, hyphen, first 2
characters of state upper-cased, hyphen, house_number verbatim, hyphen, and
the first 6 hex characters (upper-cased) of the SHA-1 digest of the four
address fields joined by "-", lower-cased, with spaces removed; a city or
state shorter than its slice uses the whole string, with no padding and no
error. -/
theorem c6_generate_matches_spec (house street city state : PyStr) :
    generate_property_code house street city state =
      specGenerateCodeSpaces house street city state := by
  have hjoin : joinSep [45] [house, street, city, state] =
      house ++ [45] ++ (street ++ [45] ++ (city ++ [45] ++ state)) := rfl
  unfold generate_property_code specGenerateCodeSpaces
  rw [hjoin]
  simp [List.append_assoc]

/-- C6 counterexample: for house_number containing a tab the source keeps the
tab in the canonical string (replace removes only spaces), while the claimed
construction strips all whitespace before hashing, so the two fingerprints —
and hence the two codes — differ. -/
theorem c6_whitespace_counterexample :
    generate_property_code (lit "4\t2") (lit "s") (lit "ci") (lit "st") ≠
      specGenerateCodeAllWs (lit "4\t2") (lit "s") (lit "ci") (lit "st") := by
  decide
